import Mathlib

/-!
Shallow embedding of `device_modules/fdo_sim/fdo_sim.c` (the fdo_sim
ServiceInfo module) and proofs about its ServiceInfo callbacks.

Pointers that the C code may receive as NULL are modelled by explicit
`Bool` null-flags (for buffers whose contents we track separately) or by
`Option` (for the codec-context double pointers `fdor_t **` / `fdow_t **`,
where the outer `Option` is the pointer itself and the inner `Option` is
the pointee `*fdor` / `*fdow`).  Dereferencing a NULL pointer is modelled
as the whole call evaluating to `none` (a crash / undefined behaviour).

The CBOR writer (`fdow_t`), the safe-copy primitive `memcpy_s` and the
allocation primitives live outside this module's source file; they are
modelled from the spec, which treats them as trusted collaborators
("write signed integer", "get encoded byte length", "reset the encode
buffer", safe-copy with defined failure signaling).
-/

/-- Return codes surfaced to the orchestrator (fdo_sim.h). -/
inductive FdoSiResult where
  | FDO_SI_SUCCESS
  | FDO_SI_CONTENT_ERROR
  | FDO_SI_INTERNAL_ERROR
deriving DecidableEq, Repr

export FdoSiResult (FDO_SI_SUCCESS FDO_SI_CONTENT_ERROR FDO_SI_INTERNAL_ERROR)

/-- Message kinds of the module (spec section 3: closed variant
`None | Done | ExitCode | Exit`), named as in the C enum. -/
inductive fdoSimModMsg where
  | FDO_SIM_MOD_MSG_NONE
  | FDO_SIM_MOD_MSG_DONE
  | FDO_SIM_MOD_MSG_EXIT_CODE
  | FDO_SIM_MOD_MSG_EXIT
deriving DecidableEq, Repr

export fdoSimModMsg (FDO_SIM_MOD_MSG_NONE FDO_SIM_MOD_MSG_DONE
  FDO_SIM_MOD_MSG_EXIT_CODE FDO_SIM_MOD_MSG_EXIT)

/-- The module-level state: `file_seek_pos`, `file_sz` and
`fetch_data_status` (0 = fetch success, 1 = failure), lines 14-19. -/
structure ModState where
  file_seek_pos : Nat
  file_sz : Nat
  fetch_data_status : Nat
deriving DecidableEq, Repr

/-- Modelled from the spec: the CBOR writer context `fdow_t` (not part of
this source file).  It owns one backing buffer of fixed capacity,
allocated at start and reset (not reallocated) before each encode; the
`block` field is the sequence of encoded bytes so far. -/
structure fdow_t where
  capacity : Nat
  block : List Nat
deriving DecidableEq, Repr

/-- Modelled from the spec: the CBOR reader context `fdor_t` (not part of
this source file).  Its internals are never consulted by the code under
verification, only its allocation status. -/
structure fdor_t where
  capacity : Nat
deriving DecidableEq, Repr

/-- Modelled from the spec: `MOD_MAX_BUFF_SIZE`, the fixed capacity of
the codec backing buffers (fdo_sim.h; exact value immaterial here). -/
def MOD_MAX_BUFF_SIZE : Nat := 8192

/-- Modelled from the spec: `RSIZE_MAX_MEM`, the safe-copy library's
maximum object size. -/
def RSIZE_MAX_MEM : Nat := 268435456

/-- Modelled from the spec: `memcpy_s(dest, dmax, src, smax)` of the
safe-copy library; returns `true` for the success (0) return.  It fails
on a NULL `dest` or `src`, a zero `dmax` or `smax`, `dmax` above
`RSIZE_MAX_MEM`, or `smax > dmax`. -/
def memcpy_s_ok (destNull : Bool) (dmax : Nat) (srcNull : Bool) (smax : Nat) : Bool :=
  !destNull && decide (0 < dmax) && decide (dmax ≤ RSIZE_MAX_MEM) &&
    !srcNull && decide (0 < smax) && decide (smax ≤ dmax)

/-- Modelled from the spec: the standard CBOR head encoding of an
unsigned (major type 0) integer, as produced by the trusted CBOR
library for a non-negative signed-integer write. -/
def cborEncodeUInt (n : Nat) : List Nat :=
  if n < 24 then [n]
  else if n < 256 then [24, n]
  else if n < 65536 then [25, n / 256, n % 256]
  else if n < 4294967296 then
    [26, n / 16777216 % 256, n / 65536 % 256, n / 256 % 256, n % 256]
  else
    [27, n / 72057594037927936 % 256, n / 281474976710656 % 256,
     n / 1099511627776 % 256, n / 4294967296 % 256, n / 16777216 % 256,
     n / 65536 % 256, n / 256 % 256, n % 256]

/-- Modelled from the spec: `fdo_block_reset` — logically reset the
writer's backing buffer, keeping its allocation (reuse, not
reallocation). -/
def fdo_block_reset (w : fdow_t) : fdow_t :=
  { w with block := [] }

/-- Modelled from the spec: `fdow_encoder_init` — reinitialize the encode
cursor over the already-allocated buffer; cannot fail once the context
exists. -/
def fdow_encoder_init (_w : fdow_t) : Bool :=
  true

/-- Modelled from the spec: `fdow_signed_int` — append the CBOR encoding
of the integer to the writer's buffer, failing (out of memory) when it
would exceed the buffer capacity. -/
def fdow_signed_int (w : fdow_t) (n : Nat) : Option fdow_t :=
  let e := cborEncodeUInt n
  if w.block.length + e.length ≤ w.capacity then
    some { w with block := w.block ++ e }
  else
    none

/-- Modelled from the spec: `fdow_encoded_length` — report the number of
bytes encoded so far (the byte length is reported, not assumed). -/
def fdow_encoded_length (w : fdow_t) : Option Nat :=
  some w.block.length

/-- `write_done` (fdo_sim.c lines 24-48): write the fdo.download:done
content.  Returns `(ok, module_message, fdow)`: the message buffer
receives the string "done" (the `memcpy_s` of `sizeof("done")` bytes)
before the CBOR integer write is attempted, so on an integer-write
failure the message buffer has already been modified. -/
def write_done (module_messageNull : Bool) (module_message : String)
    (fdow : fdow_t) (bin_len : Nat) : Bool × String × fdow_t :=
  if module_messageNull || bin_len = 0 then
    (false, module_message, fdow)
  else if !(memcpy_s_ok module_messageNull 5 false 5) then
    (false, module_message, fdow)
  else
    match fdow_signed_int fdow bin_len with
    | none => (false, "done", fdow)
    | some w => (true, "done", w)

/-- `write_exitcode` (fdo_sim.c lines 53-77): write the
fdo.command:exitcode content.  Unlike `write_done` there is no check on
`bin_len`, only on the message pointer. -/
def write_exitcode (module_messageNull : Bool) (module_message : String)
    (fdow : fdow_t) (bin_len : Nat) : Bool × String × fdow_t :=
  if module_messageNull then
    (false, module_message, fdow)
  else if !(memcpy_s_ok module_messageNull 9 false 9) then
    (false, module_message, fdow)
  else
    match fdow_signed_int fdow bin_len with
    | none => (false, "exitcode", fdow)
    | some w => (true, "exitcode", w)

/-- `fdo_sim_start` (fdo_sim.c lines 91-115).  `fdowInitOk` is the
combined outcome of `fdow_init` and the writer's buffer reservation,
`fdorInitOk` the same for the reader.  `result` starts as
`FDO_SI_INTERNAL_ERROR`; the writer failure branch sets it to
`FDO_SI_CONTENT_ERROR` before `goto end`, the reader failure branch
jumps to `end` without changing it. -/
def fdo_sim_start (fdowInitOk fdorInitOk : Bool) : FdoSiResult :=
  if !fdowInitOk then FDO_SI_CONTENT_ERROR
  else if !fdorInitOk then FDO_SI_INTERNAL_ERROR
  else FDO_SI_SUCCESS

/-- `fdo_sim_failure` (fdo_sim.c lines 117-135).  `processDataOk` is the
outcome of the external cancellation callback
`fsim_process_data(FDO_SIM_MOD_MSG_EXIT, ...)` (fdo_sim_utils, outside
this file).  On a callback failure it returns immediately with the
contexts untouched; otherwise it flushes and frees whichever contexts
are present and returns success. -/
def fdo_sim_failure (processDataOk : Bool) (fdow : Option fdow_t)
    (fdor : Option fdor_t) : FdoSiResult × Option fdow_t × Option fdor_t :=
  if !processDataOk then
    (FDO_SI_INTERNAL_ERROR, fdow, fdor)
  else
    (FDO_SI_SUCCESS, none, none)

/-- `fdo_sim_get_dsi_count` (fdo_sim.c lines 170-180): writes 1 into a
non-null output slot unconditionally. -/
def fdo_sim_get_dsi_count (num_module_messagesNull : Bool) :
    FdoSiResult × Option Nat :=
  if num_module_messagesNull then
    (FDO_SI_CONTENT_ERROR, none)
  else
    (FDO_SI_SUCCESS, some 1)

/-- Output of `fdo_sim_end`: the returned result, the transient buffers
after release, the values behind the `hasmore`/`write_type` pointers,
the module state, and the two context double pointers (outer `Option` =
the `fdor_t **` / `fdow_t **` pointer itself, inner = the pointee). -/
structure EndOut where
  ret : FdoSiResult
  bin_data : Option (List Nat)
  exec_instr : Option (List (List Nat))
  hasmore : Bool
  write_type : fdoSimModMsg
  mod : ModState
  fdow : Option (Option fdow_t)
  fdor : Option (Option fdor_t)
deriving DecidableEq, Repr

/-- `fdo_sim_end` (fdo_sim.c lines 254-289).  Frees `bin_data` if
non-null and the `exec_instr` array if non-null with a positive length;
then, only when `result` is not success, forces `*hasmore = false`,
resets the module state to `(0, 0, 1)`, forces
`*write_type = FDO_SIM_MOD_MSG_EXIT`, and flushes/frees `*fdow` and
`*fdor` when they are non-null.  On that branch the code dereferences
the double pointers `fdow` and `fdor` unconditionally, so a NULL double
pointer is a crash, modelled as `none`. -/
def fdo_sim_end (fdor : Option (Option fdor_t)) (fdow : Option (Option fdow_t))
    (result : FdoSiResult) (bin_data : Option (List Nat))
    (exec_instr : Option (List (List Nat))) (total_exec_array_length : Nat)
    (hasmore : Bool) (write_type : fdoSimModMsg) (mod : ModState) :
    Option EndOut :=
  let bin' := if bin_data.isSome then none else bin_data
  let exec' := if exec_instr.isSome && decide (0 < total_exec_array_length) then
      none
    else exec_instr
  if result = FDO_SI_SUCCESS then
    some ⟨result, bin', exec', hasmore, write_type, mod, fdow, fdor⟩
  else
    match fdow with
    | none => none
    | some _ =>
      match fdor with
      | none => none
      | some _ =>
        some ⟨result, bin', exec', false, FDO_SIM_MOD_MSG_EXIT, ⟨0, 0, 1⟩,
          some none, some none⟩

/-- Caller-visible outcome of one `fdo_sim_get_dsi` call: the returned
result, the message-key buffer, the value buffer, the reported value
size, the values behind `hasmore`/`write_type`, the writer context (as
left by `fdo_sim_end`), the module state and the transient data
buffer. -/
structure DsiOut where
  ret : FdoSiResult
  module_message : String
  module_val : List Nat
  module_val_sz : Nat
  hasmore : Bool
  write_type : fdoSimModMsg
  fdow : Option fdow_t
  mod : ModState
  bin_data : Option (List Nat)
deriving DecidableEq, Repr

/-- The `end:` merge point of `fdo_sim_get_dsi` (fdo_sim.c lines
248-251): every non-early exit funnels through
`fdo_sim_end(NULL, fdow, result, bin_data, NULL, 0, hasmore,
write_type)` — note the NULL `fdor` double pointer, which
`fdo_sim_end` dereferences whenever `result` is not success. -/
def fdo_sim_get_dsi_goto_end (result : FdoSiResult) (msg : String)
    (val : List Nat) (sz : Nat) (hm : Bool) (wt : fdoSimModMsg) (w : fdow_t)
    (mod : ModState) (bin : Option (List Nat)) : Option DsiOut :=
  match fdo_sim_end none (some (some w)) result bin none 0 hm wt mod with
  | none => none
  | some e =>
    some ⟨e.ret, msg, val, sz, e.hasmore, e.write_type, e.fdow.join, e.mod,
      e.bin_data⟩

/-- The common tail of `fdo_sim_get_dsi` (fdo_sim.c lines 235-247):
query the encoded length, store it into `*module_val_sz`, then
`memcpy_s(module_val, *module_val_sz, block, *module_val_sz)` — the
copy bound is the encoded length itself, never the caller's capacity or
the mtu. -/
def fdo_sim_get_dsi_tail (module_valNull : Bool) (msg : String)
    (val : List Nat) (sz : Nat) (hm : Bool) (wt : fdoSimModMsg) (w : fdow_t)
    (mod : ModState) (bin : Option (List Nat)) : Option DsiOut :=
  match fdow_encoded_length w with
  | none => fdo_sim_get_dsi_goto_end FDO_SI_INTERNAL_ERROR msg val sz hm wt w mod bin
  | some temp =>
    if memcpy_s_ok module_valNull temp false temp then
      fdo_sim_get_dsi_goto_end FDO_SI_SUCCESS msg (w.block.take temp) temp hm wt w mod bin
    else
      fdo_sim_get_dsi_goto_end FDO_SI_INTERNAL_ERROR msg val temp hm wt w mod bin

/-- `fdo_sim_get_dsi` (fdo_sim.c lines 182-252).  The three `Bool`
null-flags model the `module_message` / `module_val` / `module_val_sz`
pointers checked at entry; `temp_module_val_sz` is the by-value
parameter the C code overwrites before its only use; `filename` is
cast to void and omitted.  The early parameter check returns
`FDO_SI_CONTENT_ERROR` directly, without passing through
`fdo_sim_end`; all later exits go through the `end:` merge point. -/
def fdo_sim_get_dsi (mtu : Nat)
    (module_messageNull module_valNull module_val_szNull : Bool)
    (module_message : String) (module_val : List Nat) (module_val_sz : Nat)
    (bin_len : Nat) (bin_data : Option (List Nat)) (_temp_module_val_sz : Nat)
    (hasmore : Bool) (write_type : fdoSimModMsg) (fdow : fdow_t)
    (mod : ModState) : Option DsiOut :=
  if mtu = 0 || module_messageNull || module_valNull || module_val_szNull then
    some ⟨FDO_SI_CONTENT_ERROR, module_message, module_val, module_val_sz,
      hasmore, write_type, some fdow, mod, bin_data⟩
  else
    let w0 := fdo_block_reset fdow
    if !fdow_encoder_init w0 then
      fdo_sim_get_dsi_goto_end FDO_SI_INTERNAL_ERROR module_message module_val
        module_val_sz hasmore write_type w0 mod bin_data
    else if !hasmore || write_type = FDO_SIM_MOD_MSG_EXIT then
      fdo_sim_get_dsi_goto_end FDO_SI_INTERNAL_ERROR module_message module_val
        module_val_sz hasmore write_type w0 mod bin_data
    else if write_type = FDO_SIM_MOD_MSG_DONE then
      match write_done module_messageNull module_message w0 bin_len with
      | (false, msg1, w1) =>
        fdo_sim_get_dsi_goto_end FDO_SI_INTERNAL_ERROR msg1 module_val
          module_val_sz hasmore write_type w1 mod bin_data
      | (true, msg1, w1) =>
        fdo_sim_get_dsi_tail module_valNull msg1 module_val module_val_sz
          false write_type w1 mod bin_data
    else if write_type = FDO_SIM_MOD_MSG_EXIT_CODE then
      match write_exitcode module_messageNull module_message w0 bin_len with
      | (false, msg1, w1) =>
        fdo_sim_get_dsi_goto_end FDO_SI_INTERNAL_ERROR msg1 module_val
          module_val_sz hasmore write_type w1 mod bin_data
      | (true, msg1, w1) =>
        fdo_sim_get_dsi_tail module_valNull msg1 module_val module_val_sz
          false write_type w1 mod bin_data
    else
      fdo_sim_get_dsi_goto_end FDO_SI_INTERNAL_ERROR module_message module_val
        module_val_sz hasmore write_type w0 mod bin_data

/-! ## Helper lemmas -/

/-- Through the `end:` merge point of `fdo_sim_get_dsi` a call can only
return (rather than crash on the NULL `fdor` double pointer) when the
merged result is success, and then all caller-visible fields pass
through unchanged, with the transient buffer freed. -/
theorem fdo_sim_get_dsi_goto_end_some (r : FdoSiResult) (msg : String)
    (val : List Nat) (sz : Nat) (hm : Bool) (wt : fdoSimModMsg) (w : fdow_t)
    (mod : ModState) (bin : Option (List Nat)) (out : DsiOut)
    (h : fdo_sim_get_dsi_goto_end r msg val sz hm wt w mod bin = some out) :
    r = FDO_SI_SUCCESS ∧
      out = ⟨FDO_SI_SUCCESS, msg, val, sz, hm, wt, some w, mod, none⟩ := by
  cases r <;> cases bin <;>
    simp_all [fdo_sim_get_dsi_goto_end, fdo_sim_end, Option.join]

/-- The common copy tail of `fdo_sim_get_dsi` can only return with a
success result, and passes the `hasmore` value through. -/
theorem fdo_sim_get_dsi_tail_some (vN : Bool) (msg : String) (val : List Nat)
    (sz : Nat) (hm : Bool) (wt : fdoSimModMsg) (w : fdow_t) (mod : ModState)
    (bin : Option (List Nat)) (out : DsiOut)
    (h : fdo_sim_get_dsi_tail vN msg val sz hm wt w mod bin = some out) :
    out.ret = FDO_SI_SUCCESS ∧ out.hasmore = hm := by
  simp only [fdo_sim_get_dsi_tail, fdow_encoded_length] at h
  split at h <;>
  · obtain ⟨-, h2⟩ := fdo_sim_get_dsi_goto_end_some _ _ _ _ _ _ _ _ _ _ h
    simp [h2]

/-! ## Claim theorems -/

/-- C5 counterexample: when the writer context sets up fine but the
reader context setup fails, `fdo_sim_start` returns
`FDO_SI_INTERNAL_ERROR` (the untouched initial result), not the
`FDO_SI_CONTENT_ERROR` the claim asserts for either setup failure. -/
theorem fdo_sim_start_reader_fail_ce :
    fdo_sim_start true false = FDO_SI_INTERNAL_ERROR ∧
      FDO_SI_INTERNAL_ERROR ≠ FDO_SI_CONTENT_ERROR := by
  decide

/-- C5 (amended): `fdo_sim_start` returns success exactly when both
codec-context setups succeed; a writer setup failure yields
`FDO_SI_CONTENT_ERROR`, while a reader setup failure (writer fine)
yields `FDO_SI_INTERNAL_ERROR`. -/
theorem fdo_sim_start_result_cases :
    ∀ a b : Bool,
      (fdo_sim_start a b = FDO_SI_SUCCESS ↔ a = true ∧ b = true) ∧
      fdo_sim_start false b = FDO_SI_CONTENT_ERROR ∧
      fdo_sim_start true false = FDO_SI_INTERNAL_ERROR := by
  decide

/-- C7: `fdo_sim_failure` returns `FDO_SI_INTERNAL_ERROR` and leaves both
codec contexts untouched when the cancellation callback fails, and
returns `FDO_SI_SUCCESS` with both contexts released otherwise. -/
theorem fdo_sim_failure_callback_contract :
    ∀ (w : Option fdow_t) (r : Option fdor_t),
      fdo_sim_failure false w r = (FDO_SI_INTERNAL_ERROR, w, r) ∧
      fdo_sim_failure true w r = (FDO_SI_SUCCESS, none, none) := by
  intro w r
  exact ⟨rfl, rfl⟩

/-- C9: `fdo_sim_end` called with a success result releases only the
supplied transient buffers (`bin_data` always when supplied, the
`exec_instr` array only when supplied with a positive length) and
leaves the module state, `*hasmore`, `*write_type` and both codec
context pointers unchanged. -/
theorem fdo_sim_end_success_frame :
    ∀ (fp : Option (Option fdor_t)) (wp : Option (Option fdow_t))
      (bin : Option (List Nat)) (exec : Option (List (List Nat)))
      (len : Nat) (hm : Bool) (wt : fdoSimModMsg) (mod : ModState),
      fdo_sim_end fp wp FDO_SI_SUCCESS bin exec len hm wt mod =
        some ⟨FDO_SI_SUCCESS, none,
          if exec.isSome && decide (0 < len) then none else exec,
          hm, wt, mod, wp, fp⟩ := by
  intro fp wp bin exec len hm wt mod
  cases bin <;> rfl

/-- C10: the two message writers treat a zero payload asymmetrically:
`write_done` rejects `bin_len = 0` outright, while `write_exitcode`
accepts it and succeeds whenever the one-byte CBOR encoding of 0 fits
the writer's buffer. -/
theorem write_done_exitcode_zero_asymmetry :
    ∀ (msg : String) (w : fdow_t),
      write_done false msg w 0 = (false, msg, w) ∧
      (w.block.length + 1 ≤ w.capacity →
        write_exitcode false msg w 0 = (true, "exitcode", ⟨w.capacity, w.block ++ [0]⟩)) := by
  intro msg w
  refine ⟨rfl, fun h => ?_⟩
  simp [write_exitcode, memcpy_s_ok, RSIZE_MAX_MEM, fdow_signed_int,
    cborEncodeUInt, h]

/-- C10 witness: concrete zero-payload calls of both writers. -/
theorem write_done_exitcode_zero_asymmetry_witness :
    write_done false "" ⟨8192, []⟩ 0 = (false, "", ⟨8192, []⟩) ∧
    write_exitcode false "" ⟨8192, []⟩ 0 = (true, "exitcode", ⟨8192, [0]⟩) :=
  ⟨(write_done_exitcode_zero_asymmetry "" ⟨8192, []⟩).1,
   (write_done_exitcode_zero_asymmetry "" ⟨8192, []⟩).2 (by decide)⟩

/-- C1 counterexample: with `mtu = 1`, valid pointers, `*hasmore = true`
and kind `Done` with payload hint 42, the CBOR value encodes to 2 bytes
(`0x18 0x2a`), exceeding the 1-byte MTU budget — yet the call returns
`FDO_SI_SUCCESS` and both bytes are copied into the caller's value
buffer: there is no budget comparison at all. -/
theorem fdo_sim_get_dsi_over_budget_success_ce :
    fdo_sim_get_dsi 1 false false false "" [] 0 42 none 0 true
        FDO_SIM_MOD_MSG_DONE ⟨8192, []⟩ ⟨0, 0, 1⟩ =
      some ⟨FDO_SI_SUCCESS, "done", [24, 42], 2, false, FDO_SIM_MOD_MSG_DONE,
        some ⟨8192, [24, 42]⟩, ⟨0, 0, 1⟩, none⟩ ∧
    1 < 2 ∧ FDO_SI_SUCCESS ≠ FDO_SI_CONTENT_ERROR := by
  decide

/-- C1 (amended): `fdo_sim_get_dsi` consults `mtu` only in the zero
check at entry — for any two nonzero MTUs the whole call behaves
identically, so the reported encoded length is never compared against
the caller's MTU budget. -/
theorem fdo_sim_get_dsi_mtu_independent
    (mtu1 mtu2 : Nat) (mN vN sN : Bool) (msg : String) (val : List Nat)
    (sz bl : Nat) (bin : Option (List Nat)) (tmp : Nat) (hm : Bool)
    (wt : fdoSimModMsg) (w : fdow_t) (mod : ModState)
    (h1 : mtu1 ≠ 0) (h2 : mtu2 ≠ 0) :
    fdo_sim_get_dsi mtu1 mN vN sN msg val sz bl bin tmp hm wt w mod =
      fdo_sim_get_dsi mtu2 mN vN sN msg val sz bl bin tmp hm wt w mod := by
  unfold fdo_sim_get_dsi
  simp [h1, h2]

/-- C1 witness: concrete nonzero MTUs 1 and 8192 give identical calls. -/
theorem fdo_sim_get_dsi_mtu_independent_witness :
    (1 : Nat) ≠ 0 ∧ (8192 : Nat) ≠ 0 ∧
    fdo_sim_get_dsi 1 false false false "" [] 0 42 none 0 true
        FDO_SIM_MOD_MSG_DONE ⟨8192, []⟩ ⟨0, 0, 1⟩ =
      fdo_sim_get_dsi 8192 false false false "" [] 0 42 none 0 true
        FDO_SIM_MOD_MSG_DONE ⟨8192, []⟩ ⟨0, 0, 1⟩ :=
  ⟨by decide, by decide,
   fdo_sim_get_dsi_mtu_independent 1 8192 false false false "" [] 0 42 none 0
     true FDO_SIM_MOD_MSG_DONE ⟨8192, []⟩ ⟨0, 0, 1⟩ (by decide) (by decide)⟩

/-- C2: with valid pointers and `mtu > 0`, a call in an illegal
pre-state (`*hasmore = false`, or kind `Exit`, or kind `None`) does not
return `FDO_SI_CONTENT_ERROR`: its merged result stays
`FDO_SI_INTERNAL_ERROR`, and the cleanup call
`fdo_sim_end(NULL, fdow, ...)` then dereferences the NULL `fdor` double
pointer on the failure branch, so the call crashes (modelled as
`none`). -/
theorem fdo_sim_get_dsi_illegal_state_crashes :
    fdo_sim_get_dsi 1 false false false "" [] 0 42 none 0 false
        FDO_SIM_MOD_MSG_DONE ⟨8192, []⟩ ⟨0, 0, 1⟩ = none ∧
    fdo_sim_get_dsi 1 false false false "" [] 0 42 none 0 true
        FDO_SIM_MOD_MSG_EXIT ⟨8192, []⟩ ⟨0, 0, 1⟩ = none ∧
    fdo_sim_get_dsi 1 false false false "" [] 0 42 none 0 true
        FDO_SIM_MOD_MSG_NONE ⟨8192, []⟩ ⟨0, 0, 1⟩ = none := by
  decide

/-- C3 counterexample: after a successful `Done` encode (which does set
`*hasmore = false`), a subsequent `fdo_sim_get_dsi_count` with a valid
slot still writes 1, not the 0 the claim asserts for the round after
the terminal message. -/
theorem fdo_sim_get_dsi_count_after_done_ce :
    (fdo_sim_get_dsi 8192 false false false "" [] 0 42 none 0 true
        FDO_SIM_MOD_MSG_DONE ⟨8192, []⟩ ⟨0, 0, 1⟩).map
        (fun o => (o.ret, o.hasmore)) = some (FDO_SI_SUCCESS, false) ∧
    fdo_sim_get_dsi_count false = (FDO_SI_SUCCESS, some 1) ∧
    (some 1 : Option Nat) ≠ some 0 := by
  decide

/-- C3 (amended): any `fdo_sim_get_dsi` call that returns with a success
result leaves `*hasmore = false`, but `fdo_sim_get_dsi_count` writes 1
into a non-null slot unconditionally, so a count after the terminal
message still reports 1 (and a null slot still fails with
`FDO_SI_CONTENT_ERROR`). -/
theorem fdo_sim_get_dsi_count_always_one
    (mtu : Nat) (mN vN sN : Bool) (msg : String) (val : List Nat)
    (sz bl : Nat) (bin : Option (List Nat)) (tmp : Nat) (hm : Bool)
    (wt : fdoSimModMsg) (w : fdow_t) (mod : ModState) (out : DsiOut)
    (h : fdo_sim_get_dsi mtu mN vN sN msg val sz bl bin tmp hm wt w mod = some out)
    (hs : out.ret = FDO_SI_SUCCESS) :
    out.hasmore = false ∧
    fdo_sim_get_dsi_count false = (FDO_SI_SUCCESS, some 1) ∧
    fdo_sim_get_dsi_count true = (FDO_SI_CONTENT_ERROR, none) := by
  refine ⟨?_, rfl, rfl⟩
  unfold fdo_sim_get_dsi at h
  simp only [fdow_encoder_init, Bool.not_true, Bool.false_eq_true, if_false] at h
  split at h
  · cases h
    simp at hs
  · split at h
    · obtain ⟨hr, -⟩ := fdo_sim_get_dsi_goto_end_some _ _ _ _ _ _ _ _ _ _ h
      simp at hr
    · split at h
      · split at h
        · obtain ⟨hr, -⟩ := fdo_sim_get_dsi_goto_end_some _ _ _ _ _ _ _ _ _ _ h
          simp at hr
        · exact (fdo_sim_get_dsi_tail_some _ _ _ _ _ _ _ _ _ _ h).2
      · split at h
        · split at h
          · obtain ⟨hr, -⟩ := fdo_sim_get_dsi_goto_end_some _ _ _ _ _ _ _ _ _ _ h
            simp at hr
          · exact (fdo_sim_get_dsi_tail_some _ _ _ _ _ _ _ _ _ _ h).2
        · obtain ⟨hr, -⟩ := fdo_sim_get_dsi_goto_end_some _ _ _ _ _ _ _ _ _ _ h
          simp at hr

/-- C3 witness: a concrete successful `ExitCode` encode followed by the
count call. -/
theorem fdo_sim_get_dsi_count_always_one_witness :
    false = false ∧
    fdo_sim_get_dsi_count false = (FDO_SI_SUCCESS, some 1) ∧
    fdo_sim_get_dsi_count true = (FDO_SI_CONTENT_ERROR, none) :=
  fdo_sim_get_dsi_count_always_one 9000 false false false "" [] 0 7 none 0
    true FDO_SIM_MOD_MSG_EXIT_CODE ⟨8192, []⟩ ⟨0, 0, 1⟩
    ⟨FDO_SI_SUCCESS, "exitcode", [7], 1, false, FDO_SIM_MOD_MSG_EXIT_CODE,
      some ⟨8192, [7]⟩, ⟨0, 0, 1⟩, none⟩
    (by decide) (by decide)

/-- C4 counterexample: a successful `Done` encode writes the string
"done" into the caller's message-key buffer, not the full protocol key
"fdo.download:done" the claim asserts (the module-name prefix is added
outside this function). -/
theorem fdo_sim_get_dsi_key_ce :
    (fdo_sim_get_dsi 8192 false false false "" [] 0 42 none 0 true
        FDO_SIM_MOD_MSG_DONE ⟨8192, []⟩ ⟨0, 0, 1⟩).map DsiOut.module_message =
      some "done" ∧
    "done" ≠ "fdo.download:done" := by
  decide

/-- C4 (amended): a successful encode of `Done` with payload hint 42
writes the message name "done" into `messageKey_out` and the CBOR
encoding of the integer 42 (bytes `0x18 0x2a`) into the value buffer;
a successful encode of `ExitCode` with hint 7 writes "exitcode" and the
CBOR byte `0x07`. -/
theorem fdo_sim_get_dsi_key_value :
    fdo_sim_get_dsi 8192 false false false "" [] 0 42 none 0 true
        FDO_SIM_MOD_MSG_DONE ⟨8192, []⟩ ⟨0, 0, 1⟩ =
      some ⟨FDO_SI_SUCCESS, "done", [24, 42], 2, false, FDO_SIM_MOD_MSG_DONE,
        some ⟨8192, [24, 42]⟩, ⟨0, 0, 1⟩, none⟩ ∧
    fdo_sim_get_dsi 8192 false false false "" [] 0 7 none 0 true
        FDO_SIM_MOD_MSG_EXIT_CODE ⟨8192, []⟩ ⟨0, 0, 1⟩ =
      some ⟨FDO_SI_SUCCESS, "exitcode", [7], 1, false,
        FDO_SIM_MOD_MSG_EXIT_CODE, some ⟨8192, [7]⟩, ⟨0, 0, 1⟩, none⟩ := by
  decide

/-- C6: the failure-path reset of `fdo_sim_end` is idempotent — after a
first cleanup with any non-success result, a second cleanup on the
resulting state is a no-op for the reset fields: the module state stays
`(0, 0, 1)` (seek position 0, total size 0, fetch status failure),
`*hasmore` stays false and `*write_type` stays `Exit`, and the freed
context slots stay empty. -/
theorem fdo_sim_end_reset_idempotent
    (r : FdoSiResult) (hm : Bool) (wt : fdoSimModMsg) (mod : ModState)
    (ropt : Option fdor_t) (wopt : Option fdow_t) (out1 out2 : EndOut)
    (hr : r ≠ FDO_SI_SUCCESS)
    (h1 : fdo_sim_end (some ropt) (some wopt) r none none 0 hm wt mod = some out1)
    (h2 : fdo_sim_end out1.fdor out1.fdow r none none 0 out1.hasmore
        out1.write_type out1.mod = some out2) :
    out2.mod = out1.mod ∧ out2.hasmore = out1.hasmore ∧
    out2.write_type = out1.write_type ∧ out2.fdow = out1.fdow ∧
    out2.fdor = out1.fdor ∧ out1.mod = ⟨0, 0, 1⟩ ∧ out1.hasmore = false ∧
    out1.write_type = FDO_SIM_MOD_MSG_EXIT := by
  have e1 : out1 = ⟨r, none, none, false, FDO_SIM_MOD_MSG_EXIT, ⟨0, 0, 1⟩,
      some none, some none⟩ := by
    simp only [fdo_sim_end, if_neg hr] at h1
    simp at h1
    exact h1.symm
  subst e1
  simp only [fdo_sim_end, if_neg hr] at h2
  simp at h2
  simp [← h2]

/-- C6 witness: a concrete double cleanup with an internal-error result
from a dirty state. -/
theorem fdo_sim_end_reset_idempotent_witness :
    FDO_SI_INTERNAL_ERROR ≠ FDO_SI_SUCCESS ∧
    ((⟨0, 0, 1⟩ : ModState) = ⟨0, 0, 1⟩ ∧ false = false ∧
      FDO_SIM_MOD_MSG_EXIT = FDO_SIM_MOD_MSG_EXIT ∧
      (some none : Option (Option fdow_t)) = some none ∧
      (some none : Option (Option fdor_t)) = some none ∧
      (⟨0, 0, 1⟩ : ModState) = ⟨0, 0, 1⟩ ∧ false = false ∧
      FDO_SIM_MOD_MSG_EXIT = FDO_SIM_MOD_MSG_EXIT) :=
  ⟨by decide,
   fdo_sim_end_reset_idempotent FDO_SI_INTERNAL_ERROR true FDO_SIM_MOD_MSG_DONE
     ⟨5, 7, 0⟩ (some ⟨4⟩) (some ⟨8192, [1]⟩)
     ⟨FDO_SI_INTERNAL_ERROR, none, none, false, FDO_SIM_MOD_MSG_EXIT,
       ⟨0, 0, 1⟩, some none, some none⟩
     ⟨FDO_SI_INTERNAL_ERROR, none, none, false, FDO_SIM_MOD_MSG_EXIT,
       ⟨0, 0, 1⟩, some none, some none⟩
     (by decide) (by decide) (by decide)⟩

/-- C8: whenever `fdo_sim_get_dsi` returns at all with a non-success
result, the caller's message-key buffer, value buffer and reported
value size are all unmodified.  (The only returning non-success path is
the entry parameter check; every later failure funnels into
`fdo_sim_end(NULL, ...)`, which crashes on the NULL `fdor` double
pointer instead of returning.) -/
theorem fdo_sim_get_dsi_no_partial_outputs
    (mtu : Nat) (mN vN sN : Bool) (msg : String) (val : List Nat)
    (sz bl : Nat) (bin : Option (List Nat)) (tmp : Nat) (hm : Bool)
    (wt : fdoSimModMsg) (w : fdow_t) (mod : ModState) (out : DsiOut)
    (h : fdo_sim_get_dsi mtu mN vN sN msg val sz bl bin tmp hm wt w mod = some out)
    (hns : out.ret ≠ FDO_SI_SUCCESS) :
    out.module_message = msg ∧ out.module_val = val ∧ out.module_val_sz = sz := by
  unfold fdo_sim_get_dsi at h
  simp only [fdow_encoder_init, Bool.not_true, Bool.false_eq_true, if_false] at h
  split at h
  · cases h
    exact ⟨rfl, rfl, rfl⟩
  · split at h
    · obtain ⟨-, h2⟩ := fdo_sim_get_dsi_goto_end_some _ _ _ _ _ _ _ _ _ _ h
      exact absurd (by simp [h2]) hns
    · split at h
      · split at h
        · obtain ⟨-, h2⟩ := fdo_sim_get_dsi_goto_end_some _ _ _ _ _ _ _ _ _ _ h
          exact absurd (by simp [h2]) hns
        · exact absurd (fdo_sim_get_dsi_tail_some _ _ _ _ _ _ _ _ _ _ h).1 hns
      · split at h
        · split at h
          · obtain ⟨-, h2⟩ := fdo_sim_get_dsi_goto_end_some _ _ _ _ _ _ _ _ _ _ h
            exact absurd (by simp [h2]) hns
          · exact absurd (fdo_sim_get_dsi_tail_some _ _ _ _ _ _ _ _ _ _ h).1 hns
        · obtain ⟨-, h2⟩ := fdo_sim_get_dsi_goto_end_some _ _ _ _ _ _ _ _ _ _ h
          exact absurd (by simp [h2]) hns

/-- C8 witness: the entry parameter check (here `mtu = 0`) returns
`FDO_SI_CONTENT_ERROR` with every caller-visible output untouched. -/
theorem fdo_sim_get_dsi_no_partial_outputs_witness :
    (⟨FDO_SI_CONTENT_ERROR, "k", [9], 3, true, FDO_SIM_MOD_MSG_DONE,
        some ⟨8192, []⟩, ⟨0, 0, 1⟩, none⟩ : DsiOut).module_message = "k" ∧
    (⟨FDO_SI_CONTENT_ERROR, "k", [9], 3, true, FDO_SIM_MOD_MSG_DONE,
        some ⟨8192, []⟩, ⟨0, 0, 1⟩, none⟩ : DsiOut).module_val = [9] ∧
    (⟨FDO_SI_CONTENT_ERROR, "k", [9], 3, true, FDO_SIM_MOD_MSG_DONE,
        some ⟨8192, []⟩, ⟨0, 0, 1⟩, none⟩ : DsiOut).module_val_sz = 3 :=
  fdo_sim_get_dsi_no_partial_outputs 0 false false false "k" [9] 3 42 none 0
    true FDO_SIM_MOD_MSG_DONE ⟨8192, []⟩ ⟨0, 0, 1⟩
    ⟨FDO_SI_CONTENT_ERROR, "k", [9], 3, true, FDO_SIM_MOD_MSG_DONE,
      some ⟨8192, []⟩, ⟨0, 0, 1⟩, none⟩
    (by decide) (by decide)
